import Mathlib

/-!
Verification of the activity-audit logging and admin-verification workflow of
the alumni-tracer admin application.

The development is a shallow embedding of the relevant TypeScript modules:

* `src/activityLog.ts` — the audit-log writer `logActivityRaw` and its
  wrappers `logActivity`, `signInWithPasswordLog`, `updateProfileWithLog`.
* `src/components/AdminVerifyToggle.tsx` — the `toggle` handler.
* `src/pages/AlumniVerificationAdmin.tsx` — `toggleVerify`, `markNotAlumni`,
  `undoNotAlumni` and the flagged-row enrichment part of `load`.

Backend effects (the hosted relational store, the auth session and the
outcome of each remote call) are passed in explicitly: every operation takes
the outcome of its remote calls as parameters and returns the resulting
audit store, local diagnostic channel, local UI state and backend profile
record.  JavaScript truthiness on optional strings (null / undefined / ""),
the `?? `/`|| ` fallbacks and `.toLowerCase()` are modelled explicitly.
-/

namespace AlumniAdmin

/-- JavaScript truthiness for an optional string: `null`/`undefined`/`""` are
falsy; returns the string when truthy, `none` otherwise. -/
def truthy? (s : Option String) : Option String :=
  match s with
  | none => none
  | some v => if v = "" then none else some v

/-- JavaScript truthiness for a nullable boolean (`null` is falsy). -/
def jsBool (b : Option Bool) : Bool :=
  match b with
  | some v => v
  | none => false

/-- `x || ''` on a nullable string: empty-string default. -/
def orEmpty (s : Option String) : String :=
  match s with
  | none => ""
  | some v => v

/-- ASCII lower-casing of one character, as performed by
JavaScript `String.prototype.toLowerCase` on the ASCII action tags used by
this code base. -/
def lowerChar (c : Char) : Char := Char.toLower c

/-- Model of `action.toLowerCase()` (the action tags in this code base are
ASCII): lower-cases every character of the string. -/
def jsToLowerCase (s : String) : String := String.mk (s.data.map lowerChar)

/-- Outcome of one `supabase.from('activity_logs').insert(...)` call. -/
inductive InsertResult where
  | ok : InsertResult
  | err : String → InsertResult
deriving DecidableEq

/-- One row inserted into the `activity_logs` table by `logActivityRaw`
(`created_at` is backend-assigned and not part of the inserted payload). -/
structure AuditInsert where
  user_id : String
  action : String
  details : String
  target_user_id : Option String
  user_agent : Option String
deriving DecidableEq

/-- Result of a call into the audit writer: the audit store after the call,
the local diagnostic channel (console) after the call, and whether an insert
was attempted at all. -/
structure LogOut where
  store : List AuditInsert
  diag : List String
  attempted : Bool
deriving DecidableEq

/-- `logActivityRaw` (src/activityLog.ts:6-23).  Inserts a raw activity row;
safely no-ops when `user_id` is missing (JS-falsy).  An insert error is
captured from the response, logged to the console and not rethrown. -/
def logActivityRaw (ins : InsertResult) (ua : Option String)
    (user_id : Option String) (action : String) (details : String)
    (target_user_id : Option String)
    (store : List AuditInsert) (diag : List String) : LogOut :=
  match truthy? user_id with
  | none => { store := store, diag := diag, attempted := false }
  | some uid =>
    match ins with
    | .ok =>
      { store := store ++
          [{ user_id := uid, action := action, details := details,
             target_user_id := target_user_id, user_agent := ua }],
        diag := diag ++ ["Activity log insert ok: " ++ action ++ " " ++ uid],
        attempted := true }
    | .err m =>
      { store := store,
        diag := diag ++
          ["Activity log insert failed: " ++ action ++ " " ++ uid ++ " " ++ m],
        attempted := true }

/-- `logVerification` (src/activityLog.ts:26-35): helper dedicated to
verification events; defined in the source but not called by either of the
verification toggles. -/
def logVerification (ins : InsertResult) (ua : Option String)
    (actor_user_id : String) (target_user_id : String) (nextVerified : Bool)
    (store : List AuditInsert) (diag : List String) : LogOut :=
  logActivityRaw ins ua (some actor_user_id)
    (if nextVerified then "verify_profile" else "unverify_profile")
    (if nextVerified then "Marked profile as verified"
     else "Marked profile as unverified")
    (some target_user_id) store diag

/-- `logActivity` (src/activityLog.ts:38-47): binds the actor to the current
session user (`data.user?.id`) and lower-cases the action tag before
delegating to `logActivityRaw`. -/
def logActivity (ins : InsertResult) (ua : Option String)
    (sessionUser : Option String) (action : String) (details : String)
    (target_user_id : Option String)
    (store : List AuditInsert) (diag : List String) : LogOut :=
  logActivityRaw ins ua sessionUser (jsToLowerCase action) details
    target_user_id store diag

/-- Outcome of `supabase.auth.signInWithPassword`. -/
inductive SignInResult where
  | success : String → SignInResult
  | failure : String → SignInResult
deriving DecidableEq

/-- Result of `signInWithPasswordLog`: the auth result passed back to the
caller together with the audit store / diagnostics effects. -/
structure SignInOut where
  result : SignInResult
  store : List AuditInsert
  diag : List String
  attempted : Bool
deriving DecidableEq

/-- `signInWithPasswordLog` (src/activityLog.ts:50-80).  On success logs a
`login` row for the signed-in user; on failure fetches the current session
(`currentUser`) and calls `logActivityRaw` with `uid ?? null`. -/
def signInWithPasswordLog (res : SignInResult) (currentUser : Option String)
    (ins : InsertResult) (ua : Option String) (email : String)
    (store : List AuditInsert) (diag : List String) : SignInOut :=
  match res with
  | .success uid =>
    let out := logActivityRaw ins ua (some uid) "login"
      ("\x7b\"message\":\"User signed in\",\"email\":\"" ++ email ++
        "\",\"source\":\"web\"\x7d") none store diag
    { result := res, store := out.store, diag := out.diag,
      attempted := out.attempted }
  | .failure msg =>
    let out := logActivityRaw ins ua currentUser "login_failed"
      ("\x7b\"message\":\"" ++ msg ++ "\",\"email\":\"" ++ email ++ "\"\x7d")
      none store diag
    { result := res, store := out.store, diag := out.diag,
      attempted := out.attempted }

/-- Result of `updateProfileWithLog`: `Except.error` models the
`throw new Error('Not signed in')` path; otherwise the returned
`\x7b error \x7d` field of the primary update. -/
structure UpdateProfileOut where
  result : Except String (Option String)
  store : List AuditInsert
  diag : List String
  attempted : Bool

/-- `updateProfileWithLog` (src/activityLog.ts:98-117): updates the current
user's profile and, only when the update succeeded, logs `profile_update`;
the primary result `\x7b error \x7d` is returned regardless of the audit
write. -/
def updateProfileWithLog (sessionUser : Option String)
    (updErr : Option String) (ins : InsertResult) (ua : Option String)
    (updates : List String)
    (store : List AuditInsert) (diag : List String) : UpdateProfileOut :=
  match sessionUser with
  | none =>
    { result := .error "Not signed in", store := store, diag := diag,
      attempted := false }
  | some uid =>
    match updErr with
    | some e =>
      { result := .ok (some e), store := store, diag := diag,
        attempted := false }
    | none =>
      let out := logActivityRaw ins ua (some uid) "profile_update"
        ("Updated fields: " ++ String.intercalate ", " updates) (some uid)
        store diag
      { result := .ok none, store := out.store, diag := out.diag,
        attempted := out.attempted }

/-- A `profiles` row / view-model row (`Row` in
src/pages/AlumniVerificationAdmin.tsx:11-25).  The three `flagged_*` fields
exist only in the view model and are `none` on backend records. -/
structure Row where
  id : String
  first_name : Option String
  last_name : Option String
  course : Option String
  graduation_year : Option Int
  is_verified : Option Bool
  verified_at : Option String
  verified_by : Option String
  role : Option String
  flagged_by_name : Option String
  flagged_by_role : Option String
  flagged_at : Option Nat
deriving DecidableEq

/-- A blank profile row with the given id; concrete rows are built from it by
record update. -/
def baseRow (i : String) : Row :=
  { id := i, first_name := none, last_name := none, course := none,
    graduation_year := none, is_verified := none, verified_at := none,
    verified_by := none, role := none, flagged_by_name := none,
    flagged_by_role := none, flagged_at := none }

/-- The environment of one verification-page operation: the session user
returned by `supabase.auth.getUser()`, the outcome of the `profiles` update,
the outcome of the audit insert, `navigator.userAgent`, and the current
timestamp `new Date().toISOString()`. -/
structure ToggleEnv where
  sessionUser : Option String
  updErr : Option String
  ins : InsertResult
  ua : Option String
  now : String
deriving DecidableEq

/-- Result of one verification-page operation.  `preResolveRows` is the local
list after the optimistic `setRows` and before the remote call resolves;
`finalRows` is the local list once the handler finished (`none` means the
success path re-fetches it via `load()`); `profile` is the backend record of
the target after the operation. -/
structure OpOut where
  preResolveRows : List Row
  finalRows : Option (List Row)
  profile : Row
  errorMsg : Option String
  store : List AuditInsert
  diag : List String
  attempted : Bool
deriving DecidableEq

/-- `details` string shared by the three page handlers:
`alumni_id=...; name=<last>, <first>`. -/
def rowDetails (r : Row) : String :=
  "alumni_id=" ++ r.id ++ "; name=" ++ orEmpty r.last_name ++ ", " ++
    orEmpty r.first_name

/-- The optimistic `setRows` update of `toggleVerify`
(src/pages/AlumniVerificationAdmin.tsx:108-111): flip `is_verified` and
stamp/clear `verified_at` on the toggled row before the remote call
resolves. -/
def optimisticToggle (env : ToggleEnv) (r : Row) (x : Row) : Row :=
  if x.id = r.id then
    { x with is_verified := some (!(jsBool r.is_verified)),
             verified_at := if !(jsBool r.is_verified) then some env.now
                            else none }
  else x

/-- The rollback `setRows` update shared by the page handlers: restore the
captured prior row `r` at its position. -/
def rollbackRow (r : Row) (x : Row) : Row :=
  if x.id = r.id then r else x

/-- `toggleVerify` (src/pages/AlumniVerificationAdmin.tsx:105-134).
Optimistically flips the row, updates the backend record, and on success logs
`Verify Alumni`/`Unverify Alumni` through `logActivity`; on failure rolls the
row back to `r` and surfaces the error message. -/
def toggleVerify (env : ToggleEnv) (r : Row) (rows : List Row) (p : Row)
    (store : List AuditInsert) (diag : List String) : OpOut :=
  let nextVerified := !(jsBool r.is_verified)
  let optimistic := rows.map (optimisticToggle env r)
  let adminId := truthy? env.sessionUser
  match env.updErr with
  | some m =>
    { preResolveRows := optimistic,
      finalRows := some (optimistic.map (rollbackRow r)),
      profile := p,
      errorMsg := some (if m = "" then "Update failed" else m),
      store := store, diag := diag, attempted := false }
  | none =>
    let p' :=
      if p.id = r.id then
        { p with is_verified := some nextVerified,
                 verified_at := if nextVerified then some env.now else none,
                 verified_by := if nextVerified then adminId else none }
      else p
    let out := logActivity env.ins env.ua env.sessionUser
      (if nextVerified then "Verify Alumni" else "Unverify Alumni")
      (rowDetails r) (some r.id) store diag
    { preResolveRows := optimistic, finalRows := some optimistic,
      profile := p', errorMsg := none,
      store := out.store, diag := out.diag, attempted := out.attempted }

/-- `markNotAlumni` (src/pages/AlumniVerificationAdmin.tsx:136-163).
Optimistically marks the row, updates the backend record with
`is_verified: false, verified_at: null, verified_by: adminId,
role: 'not_alumni'`, and on success logs `Mark Not Alumni` and re-fetches the
list. -/
def markNotAlumni (env : ToggleEnv) (r : Row) (rows : List Row) (p : Row)
    (store : List AuditInsert) (diag : List String) : OpOut :=
  let optimistic := rows.map (fun x =>
    if x.id = r.id then
      { x with is_verified := some false, verified_at := none,
               role := some "not_alumni" }
    else x)
  let adminId := truthy? env.sessionUser
  match env.updErr with
  | some m =>
    { preResolveRows := optimistic,
      finalRows := some (optimistic.map (rollbackRow r)),
      profile := p,
      errorMsg := some (if m = "" then "Update failed" else m),
      store := store, diag := diag, attempted := false }
  | none =>
    let p' :=
      if p.id = r.id then
        { p with is_verified := some false, verified_at := none,
                 verified_by := adminId, role := some "not_alumni" }
      else p
    let out := logActivity env.ins env.ua env.sessionUser "Mark Not Alumni"
      (rowDetails r) (some r.id) store diag
    { preResolveRows := optimistic, finalRows := none,
      profile := p', errorMsg := none,
      store := out.store, diag := out.diag, attempted := out.attempted }

/-- `undoNotAlumni` (src/pages/AlumniVerificationAdmin.tsx:165-191).
Optimistically clears the flag, updates the backend record with
`role: null, is_verified: false, verified_at: null, verified_by: null`, and
on success logs `Undo Not Alumni` and re-fetches the list. -/
def undoNotAlumni (env : ToggleEnv) (r : Row) (rows : List Row) (p : Row)
    (store : List AuditInsert) (diag : List String) : OpOut :=
  let optimistic := rows.map (fun x =>
    if x.id = r.id then
      { x with role := none, is_verified := some false, verified_at := none,
               verified_by := none, flagged_by_name := none,
               flagged_by_role := none, flagged_at := none }
    else x)
  match env.updErr with
  | some m =>
    { preResolveRows := optimistic,
      finalRows := some (optimistic.map (rollbackRow r)),
      profile := p,
      errorMsg := some (if m = "" then "Update failed" else m),
      store := store, diag := diag, attempted := false }
  | none =>
    let p' :=
      if p.id = r.id then
        { p with role := none, is_verified := some false, verified_at := none,
                 verified_by := none }
      else p
    let out := logActivity env.ins env.ua env.sessionUser "Undo Not Alumni"
      (rowDetails r) (some r.id) store diag
    { preResolveRows := optimistic, finalRows := none,
      profile := p', errorMsg := none,
      store := out.store, diag := out.diag, attempted := out.attempted }

/-- Environment of one `AdminVerifyToggle` click: the outcome of the
`set_alumni_verification` RPC, the outcome of the fallback `profiles` update,
the session user and the audit-insert outcome. -/
structure AdminToggleEnv where
  rpcErr : Option String
  updErr : Option String
  sessionUser : Option String
  ins : InsertResult
  ua : Option String
deriving DecidableEq

/-- Result of one `AdminVerifyToggle` click.  `preResolveVerified` is the
verification state shown while the remote call is in flight (the component
makes no optimistic update: the `isVerified` prop is unchanged until
`onChange` fires); `finalVerified` is the state after the handler finished
(`onChange(next)` on success, unchanged on failure). -/
structure AdminToggleOut where
  preResolveVerified : Bool
  finalVerified : Bool
  err : Option String
  fallbackAttempted : Bool
  store : List AuditInsert
  diag : List String
  attempted : Bool
deriving DecidableEq

/-- Success continuation of `toggle` (lines 41-54): fetch the session user,
log `Edit Profile` when an actor exists, then `onChange(next)`. -/
def adminToggleSuccess (env : AdminToggleEnv) (userId : String)
    (isVerified : Bool) (next : Bool) (fb : Bool)
    (store : List AuditInsert) (diag : List String) : AdminToggleOut :=
  let out :=
    match truthy? env.sessionUser with
    | some actor =>
      logActivityRaw env.ins env.ua (some actor) "Edit Profile"
        (if next then "Marked user verified" else "Marked user unverified")
        (some userId) store diag
    | none => { store := store, diag := diag, attempted := false }
  { preResolveVerified := isVerified, finalVerified := next, err := none,
    fallbackAttempted := fb, store := out.store, diag := out.diag,
    attempted := out.attempted }

/-- `toggle` (src/components/AdminVerifyToggle.tsx:22-60).  Tries the RPC
`set_alumni_verification` first; on RPC error falls back to a direct
`profiles` update; any thrown error is caught and surfaced via `setErr`. -/
def adminToggle (env : AdminToggleEnv) (userId : String) (isVerified : Bool)
    (store : List AuditInsert) (diag : List String) : AdminToggleOut :=
  let next := !isVerified
  match env.rpcErr with
  | none => adminToggleSuccess env userId isVerified next false store diag
  | some _ =>
    match env.updErr with
    | some m =>
      { preResolveVerified := isVerified, finalVerified := isVerified,
        err := some (if m = "" then "Failed to update verification" else m),
        fallbackAttempted := true, store := store, diag := diag,
        attempted := false }
    | none => adminToggleSuccess env userId isVerified next true store diag

/-- A row of the `activity_logs` query issued by `load`
(src/pages/AlumniVerificationAdmin.tsx:54-59): the backend filters on
`action = 'mark not alumni'` and `target_user_id in flaggedIds` and returns
rows ordered by `created_at` descending; `created_at` is backend-assigned and
never null. -/
structure LogRow where
  target_user_id : Option String
  user_id : Option String
  action : String
  created_at : Nat
deriving DecidableEq

/-- Ids of the rows currently flagged `not_alumni`
(src/pages/AlumniVerificationAdmin.tsx:50). -/
def flaggedIds (base : List Row) : List String :=
  (base.filter (fun r => r.role = some "not_alumni")).map (fun r => r.id)

/-- The `latestByTarget` map of `load` (lines 62-66): the logs arrive in
`created_at`-descending order and only the first row per truthy target is
kept, so the lookup for target `t` is the first row whose target is `t`. -/
def latestFor (logs : List LogRow) (t : String) : Option LogRow :=
  if t = "" then none
  else logs.find? (fun l => l.target_user_id == some t)

/-- Display name of an actor profile (line 76):
`[first_name, last_name].filter(Boolean).join(' ')`. -/
def displayName (first last : Option String) : String :=
  String.intercalate " "
    (([first, last].filterMap id).filter (fun s => !(s = "")))

/-- The `actors` map of `load` (lines 69-79): built by iterating the
`profiles` query result and overwriting on duplicate ids (last wins), so a
lookup returns the last profile with the given id. -/
def actorLookup (profs : List Row) (uid : String) :
    Option (String × Option String) :=
  (profs.reverse.find? (fun p => p.id == uid)).map
    (fun p => (displayName p.first_name p.last_name, p.role))

/-- Per-row enrichment of `load` (lines 81-93): a row flagged `not_alumni`
with a logged flag event gets `flagged_by_name` (actor display name, raw
user id when the actor profile is unresolved), `flagged_by_role` and
`flagged_at`. -/
def enrichOne (logs : List LogRow) (profs : List Row) (r : Row) : Row :=
  match latestFor logs r.id with
  | some lg =>
    if r.role = some "not_alumni" then
      let actor : Option (String × Option String) :=
        match truthy? lg.user_id with
        | some uid => actorLookup profs uid
        | none => none
      { r with
        flagged_by_name :=
          match actor with
          | some a => some a.1
          | none => lg.user_id,
        flagged_by_role :=
          match actor with
          | some a => a.2
          | none => none,
        flagged_at := some lg.created_at }
    else r
  | none => r

/-- The enrichment read-path of `load` (lines 49-95): when at least one row
is flagged, every row is passed through `enrichOne` against the
`activity_logs` query result `logs` and the actor `profiles` query result
`profs`. -/
def enrichRows (base : List Row) (logs : List LogRow) (profs : List Row) :
    List Row :=
  if (flaggedIds base).isEmpty then base
  else base.map (enrichOne logs profs)

/-- Lookup of the row with a given id in the local list (the `x.id === r.id`
row addressed by the `setRows` updates). -/
def rowFor (rows : List Row) (i : String) : Option Row :=
  rows.find? (fun x => x.id == i)

/-- The audit row written by a successful `toggleVerify` on row `r`: actor
`uid`, action the lower-cased `Verify Alumni`/`Unverify Alumni`, target the
toggled row's id. -/
def toggleVerifyEntry (uid : String) (r : Row) (ua : Option String) :
    AuditInsert :=
  { user_id := uid,
    action := if jsBool r.is_verified then "unverify alumni"
              else "verify alumni",
    details := rowDetails r,
    target_user_id := some r.id,
    user_agent := ua }

/-- The audit row written by a successful `AdminVerifyToggle.toggle` for
target `userId` previously in state `isV`: actor `a`, action the verbatim
`Edit Profile`, target the toggled user's id. -/
def editProfileEntry (a : String) (isV : Bool) (userId : String)
    (ua : Option String) : AuditInsert :=
  { user_id := a,
    action := "Edit Profile",
    details := if isV then "Marked user unverified"
               else "Marked user verified",
    target_user_id := some userId,
    user_agent := ua }

/-- C10: `logActivity` stores the audit row with the action lower-cased
(`action.toLowerCase()`), while `logActivityRaw` stores the action verbatim;
in both, the row carries the given actor, details, target and user agent. -/
theorem logActivity_lowercases_action (ua : Option String)
    (uid a details : String) (target : Option String)
    (store : List AuditInsert) (diag : List String) :
    (logActivity .ok ua (some uid) a details target store diag).store
      = (if uid = "" then store
         else store ++ [{ user_id := uid, action := jsToLowerCase a,
                          details := details, target_user_id := target,
                          user_agent := ua }])
    ∧ (logActivityRaw .ok ua (some uid) a details target store diag).store
      = (if uid = "" then store
         else store ++ [{ user_id := uid, action := a, details := details,
                          target_user_id := target, user_agent := ua }]) := by
  constructor
  · unfold logActivity logActivityRaw truthy?
    by_cases h : uid = "" <;> simp [h]
  · unfold logActivityRaw truthy?
    by_cases h : uid = "" <;> simp [h]

/-- C3: a failed sign-in with no current session writes no audit entry at
all — `signInWithPasswordLog` passes `uid ?? null` to `logActivityRaw`, which
no-ops on a missing `user_id`, so no `login_failed` row with a null actor is
ever inserted. -/
theorem login_failed_no_session_drops_entry :
    (signInWithPasswordLog (.failure "Invalid login credentials") none .ok
        none "user@example.com" [] []).store = []
    ∧ (signInWithPasswordLog (.failure "Invalid login credentials") none .ok
        none "user@example.com" [] []).attempted = false := by
  exact ⟨rfl, rfl⟩

/-- C6: a failed audit insert leaves the audit store unchanged, appends one
message to the local diagnostic channel, and is invisible to the caller: the
primary result of `toggleVerify` and of `updateProfileWithLog` is the same
whether the audit insert succeeds or fails. -/
theorem audit_failure_isolated (m : String) (ua user_id : Option String)
    (action details : String) (target : Option String)
    (store : List AuditInsert) (diag : List String)
    (env : ToggleEnv) (r p : Row) (rows : List Row)
    (su updE : Option String) (updates : List String) :
    (logActivityRaw (.err m) ua user_id action details target store diag).store
      = store
    ∧ (logActivityRaw (.err m) ua user_id action details target store diag).diag
      = (match truthy? user_id with
         | some uid =>
           diag ++ ["Activity log insert failed: " ++ action ++ " " ++ uid
             ++ " " ++ m]
         | none => diag)
    ∧ (toggleVerify { env with ins := .err m } r rows p store diag).errorMsg
      = (toggleVerify { env with ins := .ok } r rows p store diag).errorMsg
    ∧ (updateProfileWithLog su updE (.err m) ua updates store diag).result
      = (updateProfileWithLog su updE .ok ua updates store diag).result := by
  refine ⟨?_, ?_, ?_, ?_⟩
  · unfold logActivityRaw
    cases truthy? user_id <;> rfl
  · unfold logActivityRaw
    cases truthy? user_id <;> rfl
  · cases henv : env.updErr <;>
      simp [toggleVerify, henv]
  · cases su <;> cases updE <;> rfl

/-- C2 counterexample: `markNotAlumni` does not clear `verified_by` — on a
profile previously verified by `otherAdmin`, a flag by session user `admin1`
stores `verified_by = some "admin1"`, not `none`. -/
theorem markNotAlumni_verifiedBy_cex :
    (markNotAlumni
        { sessionUser := some "admin1", updErr := none, ins := .ok,
          ua := none, now := "T1" }
        (baseRow "u1") [baseRow "u1"]
        ({ baseRow "u1" with
            is_verified := some true, verified_at := some "T0",
            verified_by := some "otherAdmin" })
        [] []).profile.verified_by = some "admin1"
    ∧ ¬ (markNotAlumni
        { sessionUser := some "admin1", updErr := none, ins := .ok,
          ua := none, now := "T1" }
        (baseRow "u1") [baseRow "u1"]
        ({ baseRow "u1" with
            is_verified := some true, verified_at := some "T0",
            verified_by := some "otherAdmin" })
        [] []).profile.verified_by = none := by
  exact ⟨rfl, by decide⟩

/-- C2 amended: a successful `markNotAlumni` forces the target's role to
`not_alumni`, sets `is_verified` to false and clears `verified_at`, but sets
`verified_by` to the acting session user's id (recording the actor) rather
than clearing it. -/
theorem markNotAlumni_effect (env : ToggleEnv) (r : Row) (rows : List Row)
    (p : Row) (store : List AuditInsert) (diag : List String)
    (hupd : env.updErr = none) (hid : p.id = r.id) :
    (markNotAlumni env r rows p store diag).profile
      = { p with is_verified := some false, verified_at := none,
                 verified_by := truthy? env.sessionUser,
                 role := some "not_alumni" } := by
  unfold markNotAlumni
  rw [hupd]
  simp [hid]

/-- C2 amended, witness at a concrete verified profile. -/
theorem markNotAlumni_effect_witness :
    (markNotAlumni
        { sessionUser := some "admin1", updErr := none, ins := .ok,
          ua := none, now := "T1" }
        (baseRow "u1") [baseRow "u1"]
        ({ baseRow "u1" with
            is_verified := some true, verified_at := some "T0",
            verified_by := some "otherAdmin" })
        [] []).profile
      = { baseRow "u1" with
          is_verified := some false, verified_at := none,
          verified_by := some "admin1", role := some "not_alumni" } := by
  rw [markNotAlumni_effect
    { sessionUser := some "admin1", updErr := none, ins := .ok,
      ua := none, now := "T1" }
    (baseRow "u1") [baseRow "u1"]
    ({ baseRow "u1" with
        is_verified := some true, verified_at := some "T0",
        verified_by := some "otherAdmin" })
    [] [] rfl rfl]
  decide

/-- C7: a successful `undoNotAlumni` forces the target record to the
unflagged, unverified default — role `null`, `is_verified` false,
`verified_at` null and `verified_by` null — for every prior state, never
restoring a prior verified state. -/
theorem undoNotAlumni_unverified (env : ToggleEnv) (r : Row)
    (rows : List Row) (p : Row) (store : List AuditInsert)
    (diag : List String) (hupd : env.updErr = none) (hid : p.id = r.id) :
    (undoNotAlumni env r rows p store diag).profile.role = none
    ∧ (undoNotAlumni env r rows p store diag).profile.is_verified = some false
    ∧ (undoNotAlumni env r rows p store diag).profile.verified_at = none
    ∧ (undoNotAlumni env r rows p store diag).profile.verified_by = none := by
  unfold undoNotAlumni
  rw [hupd]
  simp [hid]

/-- C7 witness: undoing the flag on a record that was previously verified
yields the unverified default, not the prior verified state. -/
theorem undoNotAlumni_unverified_witness :
    (undoNotAlumni
        { sessionUser := some "admin1", updErr := none, ins := .ok,
          ua := none, now := "T2" }
        (baseRow "u1") [baseRow "u1"]
        ({ baseRow "u1" with
            is_verified := some true, verified_at := some "T0",
            verified_by := some "boss", role := some "not_alumni" })
        [] []).profile.role = none
    ∧ (undoNotAlumni
        { sessionUser := some "admin1", updErr := none, ins := .ok,
          ua := none, now := "T2" }
        (baseRow "u1") [baseRow "u1"]
        ({ baseRow "u1" with
            is_verified := some true, verified_at := some "T0",
            verified_by := some "boss", role := some "not_alumni" })
        [] []).profile.is_verified = some false := by
  have h := undoNotAlumni_unverified
    { sessionUser := some "admin1", updErr := none, ins := .ok,
      ua := none, now := "T2" }
    (baseRow "u1") [baseRow "u1"]
    ({ baseRow "u1" with
        is_verified := some true, verified_at := some "T0",
        verified_by := some "boss", role := some "not_alumni" })
    [] [] rfl rfl
  exact ⟨h.1, h.2.1⟩

theorem jsToLowerCase_toggle_action (b : Bool) :
    jsToLowerCase (if b then "Verify Alumni" else "Unverify Alumni")
      = if b then "verify alumni" else "unverify alumni" := by
  cases b <;> decide

theorem truthy?_some {s : Option String} {a : String}
    (h : truthy? s = some a) : truthy? (some a) = some a := by
  cases s with
  | none => simp [truthy?] at h
  | some v =>
    unfold truthy? at h ⊢
    by_cases hv : v = "" <;> simp [hv] at h <;> simp [h] at hv ⊢ <;>
      simp [hv]

theorem toggleVerify_fail_parts (env : ToggleEnv) (r : Row)
    (rows : List Row) (p : Row) (store : List AuditInsert)
    (diag : List String) (m : String) (hupd : env.updErr = some m) :
    (toggleVerify env r rows p store diag).store = store
    ∧ (toggleVerify env r rows p store diag).attempted = false
    ∧ (toggleVerify env r rows p store diag).profile = p
    ∧ (toggleVerify env r rows p store diag).errorMsg
        = some (if m = "" then "Update failed" else m) := by
  refine ⟨?_, ?_, ?_, ?_⟩ <;> simp [toggleVerify, hupd]

theorem toggleVerify_success_parts (env : ToggleEnv) (r : Row)
    (rows : List Row) (p : Row) (store : List AuditInsert)
    (diag : List String) (uid : String)
    (hses : truthy? env.sessionUser = some uid)
    (hupd : env.updErr = none) (hins : env.ins = .ok) :
    (toggleVerify env r rows p store diag).store
      = store ++ [toggleVerifyEntry uid r env.ua]
    ∧ (toggleVerify env r rows p store diag).attempted = true
    ∧ (toggleVerify env r rows p store diag).errorMsg = none := by
  refine ⟨?_, ?_, ?_⟩ <;>
    simp only [toggleVerify, logActivity, logActivityRaw, hupd, hins, hses,
      jsToLowerCase_toggle_action, toggleVerifyEntry] <;>
    cases hv : jsBool r.is_verified <;> simp [hv]

theorem adminToggle_fail_parts (envA : AdminToggleEnv) (userId : String)
    (isV : Bool) (store : List AuditInsert) (diag : List String)
    (e1 e2 : String) (h1 : envA.rpcErr = some e1)
    (h2 : envA.updErr = some e2) :
    (adminToggle envA userId isV store diag).store = store
    ∧ (adminToggle envA userId isV store diag).attempted = false
    ∧ (adminToggle envA userId isV store diag).finalVerified = isV
    ∧ (adminToggle envA userId isV store diag).preResolveVerified = isV
    ∧ (adminToggle envA userId isV store diag).err
        = some (if e2 = "" then "Failed to update verification" else e2)
    ∧ (adminToggle envA userId isV store diag).fallbackAttempted = true := by
  refine ⟨?_, ?_, ?_, ?_, ?_, ?_⟩ <;> simp [adminToggle, h1, h2]

theorem adminToggle_success_parts (envA : AdminToggleEnv) (userId : String)
    (isV : Bool) (store : List AuditInsert) (diag : List String) (a : String)
    (hses : truthy? envA.sessionUser = some a) (hins : envA.ins = .ok)
    (hok : envA.rpcErr = none ∨ envA.updErr = none) :
    (adminToggle envA userId isV store diag).store
      = store ++ [editProfileEntry a isV userId envA.ua]
    ∧ (adminToggle envA userId isV store diag).err = none
    ∧ (adminToggle envA userId isV store diag).attempted = true
    ∧ (adminToggle envA userId isV store diag).finalVerified = !isV
    ∧ (adminToggle envA userId isV store diag).preResolveVerified = isV := by
  have key : ∀ fb : Bool,
      (adminToggleSuccess envA userId isV (!isV) fb store diag).store
        = store ++ [editProfileEntry a isV userId envA.ua]
      ∧ (adminToggleSuccess envA userId isV (!isV) fb store diag).err = none
      ∧ (adminToggleSuccess envA userId isV (!isV) fb store diag).attempted
          = true
      ∧ (adminToggleSuccess envA userId isV (!isV) fb
          store diag).finalVerified = !isV
      ∧ (adminToggleSuccess envA userId isV (!isV) fb
          store diag).preResolveVerified = isV := by
    intro fb
    refine ⟨?_, ?_, ?_, ?_, ?_⟩ <;>
      simp only [adminToggleSuccess, logActivityRaw, hses, hins,
        truthy?_some hses, editProfileEntry] <;>
      cases isV <;> simp
  rcases hok with hok | hok
  · simpa only [adminToggle, hok] using key false
  · cases h1 : envA.rpcErr with
    | none => simpa only [adminToggle, h1] using key false
    | some e1 => simpa only [adminToggle, h1, hok] using key true

/-- C1 counterexample: a successful verifying toggle in
`AlumniVerificationAdmin` writes its sole audit entry with action
`verify alumni` (the lower-cased `Verify Alumni`), not `verify_profile`. -/
theorem toggleVerify_tag_cex :
    (toggleVerify
        { sessionUser := some "admin1", updErr := none, ins := .ok,
          ua := none, now := "T1" }
        (baseRow "u1") [baseRow "u1"] (baseRow "u1") [] []).store
      = [{ user_id := "admin1", action := "verify alumni",
           details := "alumni_id=u1; name=, ", target_user_id := some "u1",
           user_agent := none }]
    ∧ ¬ ("verify alumni" = "verify_profile") := by
  constructor
  · decide
  · decide

/-- C1 amended: a successful toggle writes one audit entry with
`target_user_id` equal to the toggled user's id, but the action tag is
`verify alumni`/`unverify alumni` in `AlumniVerificationAdmin.toggleVerify`
and `Edit Profile` in `AdminVerifyToggle.toggle` (see `toggleVerifyEntry`
and `editProfileEntry`) — never `verify_profile`/`unverify_profile`. -/
theorem toggle_audit_action_tags (env : ToggleEnv) (r : Row)
    (rows : List Row) (p : Row) (store : List AuditInsert)
    (diag : List String) (uid : String)
    (envA : AdminToggleEnv) (userId : String) (isV : Bool)
    (storeA : List AuditInsert) (diagA : List String) (a : String)
    (hses : truthy? env.sessionUser = some uid)
    (hupd : env.updErr = none) (hins : env.ins = .ok)
    (hsesA : truthy? envA.sessionUser = some a)
    (hok : envA.rpcErr = none ∨ envA.updErr = none)
    (hinsA : envA.ins = .ok) :
    (toggleVerify env r rows p store diag).store
      = store ++ [toggleVerifyEntry uid r env.ua]
    ∧ (toggleVerifyEntry uid r env.ua).target_user_id = some r.id
    ∧ (adminToggle envA userId isV storeA diagA).store
      = storeA ++ [editProfileEntry a isV userId envA.ua]
    ∧ (editProfileEntry a isV userId envA.ua).target_user_id = some userId
    ∧ (toggleVerifyEntry uid r env.ua).action ≠ "verify_profile"
    ∧ (toggleVerifyEntry uid r env.ua).action ≠ "unverify_profile"
    ∧ (editProfileEntry a isV userId envA.ua).action ≠ "verify_profile"
    ∧ (editProfileEntry a isV userId envA.ua).action ≠ "unverify_profile" := by
  refine ⟨(toggleVerify_success_parts env r rows p store diag uid hses hupd
    hins).1, rfl,
    (adminToggle_success_parts envA userId isV storeA diagA a hsesA hinsA
      hok).1, rfl, ?_, ?_, ?_, ?_⟩ <;>
    simp only [toggleVerifyEntry, editProfileEntry] <;>
    cases hv : jsBool r.is_verified <;> simp [hv] <;> decide

/-- C1 amended, witness: concrete successful runs of both toggles. -/
theorem toggle_audit_action_tags_witness :
    (toggleVerify
        { sessionUser := some "admin1", updErr := none, ins := .ok,
          ua := none, now := "T1" }
        ({ baseRow "u1" with is_verified := some true })
        [] (baseRow "u1") [] []).store
      = [toggleVerifyEntry "admin1"
          ({ baseRow "u1" with is_verified := some true }) none]
    ∧ (adminToggle
        { rpcErr := none, updErr := none, sessionUser := some "admin2",
          ins := .ok, ua := none } "u2" false [] []).store
      = [editProfileEntry "admin2" false "u2" none] := by
  have h := toggle_audit_action_tags
    { sessionUser := some "admin1", updErr := none, ins := .ok,
      ua := none, now := "T1" }
    ({ baseRow "u1" with is_verified := some true })
    [] (baseRow "u1") [] [] "admin1"
    { rpcErr := none, updErr := none, sessionUser := some "admin2",
      ins := .ok, ua := none } "u2" false [] [] "admin2"
    rfl rfl rfl rfl (Or.inl rfl) rfl
  exact ⟨h.1, h.2.2.1⟩

/-- C4: for both verification toggles, a failed state update attempts no
audit insert and leaves the audit store unchanged, while a successful state
change with a session user present and an accepting audit backend appends
exactly one audit entry. -/
theorem toggle_audit_once_per_success (env : ToggleEnv) (r : Row)
    (rows : List Row) (p : Row) (store : List AuditInsert)
    (diag : List String) (envA : AdminToggleEnv) (userId : String)
    (isV : Bool) (storeA : List AuditInsert) (diagA : List String) :
    (∀ m, env.updErr = some m →
      (toggleVerify env r rows p store diag).store = store
      ∧ (toggleVerify env r rows p store diag).attempted = false)
    ∧ (env.updErr = none → env.ins = .ok →
        ∀ uid, truthy? env.sessionUser = some uid →
        ∃ e, (toggleVerify env r rows p store diag).store = store ++ [e])
    ∧ (∀ e1 e2, envA.rpcErr = some e1 → envA.updErr = some e2 →
        (adminToggle envA userId isV storeA diagA).store = storeA
        ∧ (adminToggle envA userId isV storeA diagA).attempted = false)
    ∧ ((envA.rpcErr = none ∨ envA.updErr = none) → envA.ins = .ok →
        ∀ a, truthy? envA.sessionUser = some a →
        ∃ e, (adminToggle envA userId isV storeA diagA).store
          = storeA ++ [e]) := by
  refine ⟨?_, ?_, ?_, ?_⟩
  · intro m hupd
    have h := toggleVerify_fail_parts env r rows p store diag m hupd
    exact ⟨h.1, h.2.1⟩
  · intro hupd hins uid hses
    exact ⟨toggleVerifyEntry uid r env.ua,
      (toggleVerify_success_parts env r rows p store diag uid hses hupd
        hins).1⟩
  · intro e1 e2 h1 h2
    have h := adminToggle_fail_parts envA userId isV storeA diagA e1 e2 h1 h2
    exact ⟨h.1, h.2.1⟩
  · intro hok hins a hses
    exact ⟨editProfileEntry a isV userId envA.ua,
      (adminToggle_success_parts envA userId isV storeA diagA a hses hins
        hok).1⟩

/-- C4 witness: a failed update writes nothing; a successful one writes one
entry. -/
theorem toggle_audit_once_per_success_witness :
    (toggleVerify
        { sessionUser := some "admin1", updErr := some "denied", ins := .ok,
          ua := none, now := "T1" }
        (baseRow "u1") [baseRow "u1"] (baseRow "u1") [] []).store
      = ([] : List AuditInsert)
    ∧ ∃ e, (adminToggle
        { rpcErr := none, updErr := none, sessionUser := some "admin2",
          ins := .ok, ua := none } "u2" false [] []).store
      = ([] : List AuditInsert) ++ [e] := by
  have h := toggle_audit_once_per_success
    { sessionUser := some "admin1", updErr := some "denied", ins := .ok,
      ua := none, now := "T1" }
    (baseRow "u1") [baseRow "u1"] (baseRow "u1") [] []
    { rpcErr := none, updErr := none, sessionUser := some "admin2",
      ins := .ok, ua := none } "u2" false [] []
  exact ⟨(h.1 "denied" rfl).1, h.2.2.2 (Or.inl rfl) rfl "admin2" rfl⟩

/-- C5: `AdminVerifyToggle.toggle` attempts the RPC first and falls back to
the direct `profiles` update exactly when the RPC failed; when the RPC fails
and the fallback succeeds, the click still reports success and — with a
session user present and an accepting audit backend — still writes exactly
one audit entry. -/
theorem rpc_first_fallback_audit (envA : AdminToggleEnv) (userId : String)
    (isV : Bool) (store : List AuditInsert) (diag : List String) :
    (envA.rpcErr = none →
      (adminToggle envA userId isV store diag).fallbackAttempted = false)
    ∧ (∀ e1, envA.rpcErr = some e1 →
      (adminToggle envA userId isV store diag).fallbackAttempted = true)
    ∧ (∀ e1, envA.rpcErr = some e1 → envA.updErr = none →
        envA.ins = .ok → ∀ a, truthy? envA.sessionUser = some a →
        (adminToggle envA userId isV store diag).err = none
        ∧ ∃ e, (adminToggle envA userId isV store diag).store
          = store ++ [e]) := by
  refine ⟨?_, ?_, ?_⟩
  · intro hok
    simp [adminToggle, adminToggleSuccess, hok]
  · intro e1 h1
    cases h2 : envA.updErr with
    | none => simp [adminToggle, adminToggleSuccess, h1, h2]
    | some e2 => simp [adminToggle, h1, h2]
  · intro e1 h1 hupd hins a hses
    have h := adminToggle_success_parts envA userId isV store diag a hses
      hins (Or.inr hupd)
    exact ⟨h.2.1, editProfileEntry a isV userId envA.ua, h.1⟩

/-- C5 witness: RPC down, fallback succeeds — fallback attempted, no error,
one audit entry. -/
theorem rpc_first_fallback_audit_witness :
    (adminToggle
        { rpcErr := some "rpc unavailable", updErr := none,
          sessionUser := some "admin2", ins := .ok, ua := none }
        "u2" false [] []).fallbackAttempted = true
    ∧ (adminToggle
        { rpcErr := some "rpc unavailable", updErr := none,
          sessionUser := some "admin2", ins := .ok, ua := none }
        "u2" false [] []).err = none
    ∧ ∃ e, (adminToggle
        { rpcErr := some "rpc unavailable", updErr := none,
          sessionUser := some "admin2", ins := .ok, ua := none }
        "u2" false [] []).store = ([] : List AuditInsert) ++ [e] := by
  have h := rpc_first_fallback_audit
    { rpcErr := some "rpc unavailable", updErr := none,
      sessionUser := some "admin2", ins := .ok, ua := none }
    "u2" false [] []
  have h3 := h.2.2 "rpc unavailable" rfl rfl rfl "admin2" rfl
  exact ⟨h.2.1 "rpc unavailable" rfl, h3.1, h3.2⟩

theorem rowFor_map (rows : List Row) (i : String) (f : Row → Row)
    (hf : ∀ x, (f x).id = x.id) :
    rowFor (rows.map f) i = (rowFor rows i).map f := by
  induction rows with
  | nil => rfl
  | cons a tl ih =>
    simp only [List.map_cons, rowFor, List.find?_cons, hf a]
    cases h : (a.id == i) with
    | true => simp
    | false => simpa [rowFor] using ih

theorem map_rollback_cancel (rows : List Row) (r : Row) (g : Row → Row)
    (hg : ∀ x, (g x).id = x.id)
    (h : ∀ x ∈ rows, x.id = r.id → x = r) :
    ((rows.map (fun x => if x.id = r.id then g x else x)).map
      (rollbackRow r)) = rows := by
  induction rows with
  | nil => rfl
  | cons a tl ih =>
    simp only [List.map_cons, List.cons.injEq]
    constructor
    · by_cases ha : a.id = r.id
      · rw [if_pos ha]
        unfold rollbackRow
        rw [if_pos (by rw [hg a]; exact ha)]
        exact (h a (List.mem_cons_self a tl) ha).symm
      · rw [if_neg ha]
        unfold rollbackRow
        rw [if_neg ha]
    · exact ih (fun x hx hxx => h x (List.mem_cons_of_mem a hx) hxx)

theorem optimisticToggle_id (env : ToggleEnv) (r x : Row) :
    (optimisticToggle env r x).id = x.id := by
  unfold optimisticToggle
  by_cases h : x.id = r.id <;> simp [h]

theorem toggleVerify_preResolve (env : ToggleEnv) (r : Row)
    (rows : List Row) (p : Row) (store : List AuditInsert)
    (diag : List String) :
    (toggleVerify env r rows p store diag).preResolveRows
      = rows.map (optimisticToggle env r) := by
  cases h : env.updErr <;> simp [toggleVerify, h]

theorem adminToggle_preResolve (envA : AdminToggleEnv) (userId : String)
    (isV : Bool) (store : List AuditInsert) (diag : List String) :
    (adminToggle envA userId isV store diag).preResolveVerified = isV := by
  cases h1 : envA.rpcErr with
  | none => simp [adminToggle, adminToggleSuccess, h1]
  | some e1 =>
    cases h2 : envA.updErr with
    | none => simp [adminToggle, adminToggleSuccess, h1, h2]
    | some e2 => simp [adminToggle, h1, h2]

/-- C8 counterexample: `AdminVerifyToggle.toggle` applies no optimistic local
update — while the remote call is in flight the displayed state is still the
prior value, not the toggled one. -/
theorem adminToggle_no_optimistic_cex :
    (adminToggle
        { rpcErr := none, updErr := none, sessionUser := some "a1",
          ins := .ok, ua := none } "u1" false [] []).preResolveVerified
      = false
    ∧ ¬ ((adminToggle
        { rpcErr := none, updErr := none, sessionUser := some "a1",
          ins := .ok, ua := none } "u1" false [] []).preResolveVerified
      = !false) := by
  constructor
  · decide
  · decide

/-- C8 amended: `AlumniVerificationAdmin.toggleVerify` applies the optimistic
update (the toggled row shows the flipped value before the remote call
resolves) and on failure rolls the list back to the exact prior value;
`AdminVerifyToggle.toggle` applies no optimistic update — its state stays at
the prior value until resolution, stays there on failure, and flips only on
success. -/
theorem optimistic_update_rollback (env : ToggleEnv) (r : Row)
    (rows : List Row) (p : Row) (store : List AuditInsert)
    (diag : List String) (envA : AdminToggleEnv) (userId : String)
    (isV : Bool) (storeA : List AuditInsert) (diagA : List String) :
    (rowFor rows r.id = some r →
      rowFor ((toggleVerify env r rows p store diag).preResolveRows) r.id
        = some ({ r with
            is_verified := some (!(jsBool r.is_verified)),
            verified_at := if !(jsBool r.is_verified) then some env.now
                           else none }))
    ∧ (∀ m, env.updErr = some m → (∀ x ∈ rows, x.id = r.id → x = r) →
        (toggleVerify env r rows p store diag).finalRows = some rows)
    ∧ (adminToggle envA userId isV storeA diagA).preResolveVerified = isV
    ∧ (∀ e1 e2, envA.rpcErr = some e1 → envA.updErr = some e2 →
        (adminToggle envA userId isV storeA diagA).finalVerified = isV)
    ∧ ((envA.rpcErr = none ∨ envA.updErr = none) →
        (adminToggle envA userId isV storeA diagA).finalVerified = !isV) := by
  refine ⟨?_, ?_, adminToggle_preResolve envA userId isV storeA diagA,
    ?_, ?_⟩
  · intro hfind
    rw [toggleVerify_preResolve,
      rowFor_map rows r.id (optimisticToggle env r)
        (optimisticToggle_id env r), hfind]
    unfold optimisticToggle
    simp
  · intro m hupd h
    have hfin : (toggleVerify env r rows p store diag).finalRows
        = some ((rows.map (optimisticToggle env r)).map (rollbackRow r)) := by
      simp [toggleVerify, hupd]
    rw [hfin]
    have hcancel := map_rollback_cancel rows r
      (fun x => { x with
        is_verified := some (!(jsBool r.is_verified)),
        verified_at := if !(jsBool r.is_verified) then some env.now
                       else none })
      (fun x => rfl) h
    have hopt : rows.map (optimisticToggle env r)
        = rows.map (fun x => if x.id = r.id then
            ({ x with
              is_verified := some (!(jsBool r.is_verified)),
              verified_at := if !(jsBool r.is_verified) then some env.now
                             else none }) else x) := by
      simp [optimisticToggle]
    rw [hopt, hcancel]
  · intro e1 e2 h1 h2
    exact (adminToggle_fail_parts envA userId isV storeA diagA e1 e2 h1
      h2).2.2.1
  · intro hok
    rcases hok with hok | hok
    · simp [adminToggle, adminToggleSuccess, hok]
    · cases h1 : envA.rpcErr with
      | none => simp [adminToggle, adminToggleSuccess, h1]
      | some e1 => simp [adminToggle, adminToggleSuccess, h1, hok]

/-- C8 amended, witness: a concrete failed `toggleVerify` rolls back to the
exact prior list, and a concrete successful `AdminVerifyToggle` click shows
the prior value until resolution. -/
theorem optimistic_update_rollback_witness :
    (toggleVerify
        { sessionUser := some "admin1", updErr := some "network down",
          ins := .ok, ua := none, now := "T1" }
        (baseRow "u1") [baseRow "u1"] (baseRow "u1") [] []).finalRows
      = some [baseRow "u1"]
    ∧ (adminToggle
        { rpcErr := none, updErr := none, sessionUser := some "a1",
          ins := .ok, ua := none } "u1" false [] []).preResolveVerified
      = false := by
  have h := optimistic_update_rollback
    { sessionUser := some "admin1", updErr := some "network down",
      ins := .ok, ua := none, now := "T1" }
    (baseRow "u1") [baseRow "u1"] (baseRow "u1") [] []
    { rpcErr := none, updErr := none, sessionUser := some "a1",
      ins := .ok, ua := none } "u1" false [] []
  refine ⟨h.2.1 "network down" rfl ?_, h.2.2.1⟩
  intro x hx hxx
  simpa using hx

theorem find?_first_created_le (logs : List LogRow) (t : String)
    (lg : LogRow)
    (hs : logs.Pairwise (fun x y => y.created_at ≤ x.created_at))
    (hf : logs.find? (fun l => l.target_user_id == some t) = some lg) :
    ∀ l ∈ logs, l.target_user_id = some t →
      l.created_at ≤ lg.created_at := by
  induction logs with
  | nil => simp at hf
  | cons x tl ih =>
    rw [List.pairwise_cons] at hs
    rw [List.find?_cons] at hf
    cases hx : (x.target_user_id == some t) with
    | true =>
      rw [hx] at hf
      simp only [Option.some.injEq] at hf
      intro l hl hlt
      rcases List.mem_cons.1 hl with hl | hl
      · rw [hl, hf]
      · rw [← hf]
        exact hs.1 l hl
    | false =>
      rw [hx] at hf
      intro l hl hlt
      rcases List.mem_cons.1 hl with hl | hl
      · rw [hl] at hlt
        rw [beq_eq_false_iff_ne] at hx
        exact absurd hlt hx
      · exact ih hs.2 hf l hl hlt

/-- C9: when listing flagged rows, the enrichment path picks the first entry
of the `created_at`-descending `mark not alumni` log list for the flagged
target — i.e. the most recent flag event — resolves the actor's display name
and role from the `profiles` query, and surfaces them with the event time on
the listed row. -/
theorem flagged_enrichment_most_recent (base : List Row)
    (logs : List LogRow) (profs : List Row) (r pA : Row) (lg : LogRow)
    (aid : String) (T : Nat)
    (hsorted : logs.Pairwise (fun x y => y.created_at ≤ x.created_at))
    (hr : r ∈ base) (hrole : r.role = some "not_alumni")
    (hlatest : latestFor logs r.id = some lg)
    (huid : truthy? lg.user_id = some aid)
    (hT : lg.created_at = T)
    (hpA : profs.reverse.find? (fun p => p.id == aid) = some pA)
    (hrolA : pA.role = some "coordinator") :
    (enrichOne logs profs r).flagged_by_name
      = some (displayName pA.first_name pA.last_name)
    ∧ (enrichOne logs profs r).flagged_by_role = some "coordinator"
    ∧ (enrichOne logs profs r).flagged_at = some T
    ∧ (∀ l ∈ logs, l.target_user_id = some r.id →
        l.created_at ≤ T)
    ∧ enrichOne logs profs r ∈ enrichRows base logs profs := by
  have hid : ¬ r.id = "" := by
    intro h0
    rw [latestFor, if_pos h0] at hlatest
    exact Option.noConfusion hlatest
  have hfind : logs.find? (fun l => l.target_user_id == some r.id)
      = some lg := by
    rw [latestFor, if_neg hid] at hlatest
    exact hlatest
  refine ⟨?_, ?_, ?_, ?_, ?_⟩
  · simp [enrichOne, hlatest, hrole, huid, actorLookup, hpA]
  · simp [enrichOne, hlatest, hrole, huid, actorLookup, hpA, hrolA]
  · simp [enrichOne, hlatest, hrole, huid, actorLookup, hpA, hT]
  · rw [← hT]
    exact find?_first_created_le logs r.id lg hsorted hfind
  · have hne : (flaggedIds base).isEmpty = false := by
      unfold flaggedIds
      have hmem : r ∈ base.filter (fun x => x.role = some "not_alumni") :=
        List.mem_filter.2 ⟨hr, by simp [hrole]⟩
      cases hflt : base.filter (fun x => x.role = some "not_alumni") with
      | nil => rw [hflt] at hmem ; simp at hmem
      | cons y ys => simp [hflt]
    rw [enrichRows, hne]
    simp only [Bool.false_eq_true, if_false]
    exact List.mem_map.2 ⟨r, hr, rfl⟩

/-- C9 witness: target `t1` flagged most recently (time 10) by coordinator
`Ann Lee`; the enriched row surfaces her name, role and the time. -/
theorem flagged_enrichment_most_recent_witness :
    (enrichOne
        [{ target_user_id := some "t1", user_id := some "a1",
           action := "mark not alumni", created_at := 10 },
         { target_user_id := some "t1", user_id := some "zz",
           action := "mark not alumni", created_at := 5 }]
        [{ baseRow "a1" with
            first_name := some "Ann", last_name := some "Lee",
            role := some "coordinator" }]
        ({ baseRow "t1" with role := some "not_alumni" })).flagged_by_name
      = some "Ann Lee"
    ∧ (enrichOne
        [{ target_user_id := some "t1", user_id := some "a1",
           action := "mark not alumni", created_at := 10 },
         { target_user_id := some "t1", user_id := some "zz",
           action := "mark not alumni", created_at := 5 }]
        [{ baseRow "a1" with
            first_name := some "Ann", last_name := some "Lee",
            role := some "coordinator" }]
        ({ baseRow "t1" with role := some "not_alumni" })).flagged_by_role
      = some "coordinator"
    ∧ (enrichOne
        [{ target_user_id := some "t1", user_id := some "a1",
           action := "mark not alumni", created_at := 10 },
         { target_user_id := some "t1", user_id := some "zz",
           action := "mark not alumni", created_at := 5 }]
        [{ baseRow "a1" with
            first_name := some "Ann", last_name := some "Lee",
            role := some "coordinator" }]
        ({ baseRow "t1" with role := some "not_alumni" })).flagged_at
      = some 10 := by
  have h := flagged_enrichment_most_recent
    [{ baseRow "t1" with role := some "not_alumni" }]
    [{ target_user_id := some "t1", user_id := some "a1",
       action := "mark not alumni", created_at := 10 },
     { target_user_id := some "t1", user_id := some "zz",
       action := "mark not alumni", created_at := 5 }]
    [{ baseRow "a1" with
        first_name := some "Ann", last_name := some "Lee",
        role := some "coordinator" }]
    ({ baseRow "t1" with role := some "not_alumni" })
    ({ baseRow "a1" with
        first_name := some "Ann", last_name := some "Lee",
        role := some "coordinator" })
    { target_user_id := some "t1", user_id := some "a1",
      action := "mark not alumni", created_at := 10 }
    "a1" 10
    (by simp) (by simp) rfl (by decide) (by decide) rfl (by decide) rfl
  exact ⟨h.1.trans (by decide), h.2.1, h.2.2.1⟩

end AlumniAdmin
